import Mathlib

/-!
Shallow embedding of the persistence and translation-dispatch core of
NativeFlow (`src/main.py`, class `ConversationTranslator`).

The external collaborators (langdetect's `detect`, the two
`from_pretrained` loaders, the encode/generate/decode pipeline, the clock)
are modelled as an `Env` of oracle functions returning `Except Exn`.
Python exceptions are modelled by `Exn`: `runtime` for `RuntimeError`,
`other` for every other `Exception` (the distinction matters because
`translate` re-raises `RuntimeError` unchanged but wraps everything else).
The two JSON files are modelled by `StoredFile`: `missing` for
`FileNotFoundError` on open, `empty` for a zero-length read, `malformed`
for content on which `json.loads` raises `JSONDecodeError`, `valid v` for
parseable content. Python dicts are insertion-ordered association lists.
-/

namespace NativeFlow

structure Profile where
  target_lang : String
deriving DecidableEq, Repr

structure Timestamp where
  datetime : String
  timezone : String
deriving DecidableEq, Repr

structure Entry where
  user_id : String
  timestamp : Timestamp
  input_text : String
  translated_text : String
deriving DecidableEq, Repr

/-- A Python exception: `RuntimeError` versus any other `Exception`
(carrying `str(e)`). -/
inductive Exn where
  | runtime (msg : String)
  | other (msg : String)
deriving DecidableEq, Repr

def Exn.msg : Exn → String
  | .runtime m => m
  | .other m => m

/-- The state of one of the two JSON files as the loaders observe it. -/
inductive StoredFile (α : Type) where
  | missing
  | empty
  | malformed
  | valid (v : α)
deriving DecidableEq, Repr

/-- An insertion-ordered string-keyed map, as a Python dict. -/
abbrev Dict (α : Type) := List (String × α)

def dictGet {α : Type} : Dict α → String → Option α
  | [], _ => none
  | (k', v) :: rest, k => if k' = k then some v else dictGet rest k

/-- `d[k] = v`: overwrite in place, or insert at the end (dict order). -/
def dictSet {α : Type} : Dict α → String → α → Dict α
  | [], k, v => [(k, v)]
  | (k', v') :: rest, k, v =>
      if k' = k then (k', v) :: rest else (k', v') :: dictSet rest k v

/-- `d.setdefault(k, dflt)`: the value (existing or default) and the
possibly extended dict. -/
def dictSetdefault {α : Type} (m : Dict α) (k : String) (dflt : α) :
    α × Dict α :=
  match dictGet m k with
  | some v => (v, m)
  | none => (dflt, m ++ [(k, dflt)])

/-- In-memory attributes of `ConversationTranslator` plus the two files. -/
structure St where
  user_profiles : Dict Profile
  translation_history : List Entry
  profilesFile : StoredFile (Dict Profile)
  historyFile : StoredFile (List Entry)
deriving DecidableEq, Repr

/-- External oracles plus an injected write-failure for the history file
(`none` means the `open`/`json.dump` in `save_translation_history`
succeed, `some e` means they raise `e`). -/
structure Env where
  detect : String → Except Exn String
  acquireModel : String → Except Exn Unit
  acquireTokenizer : String → Except Exn Unit
  infer : String → String → Except Exn String
  now : Timestamp
  historySaveExn : Option Exn

/-- What a load yields from a file: absent, zero-length and unparseable
content all give the empty collection. -/
def readStored {α : Type} (f : StoredFile α) (emptyVal : α) : α :=
  match f with
  | .missing => emptyVal
  | .empty => emptyVal
  | .malformed => emptyVal
  | .valid v => v

def load_user_profiles (st : St) : St :=
  { st with user_profiles := readStored st.profilesFile [] }

def save_user_profiles (st : St) : St :=
  { st with profilesFile := .valid st.user_profiles }

def get_user_profile (st : St) (user_id : String) : Profile × St :=
  let r := dictSetdefault st.user_profiles user_id ⟨"en"⟩
  (r.1, { st with user_profiles := r.2 })

def save_user_profile (st : St) (user_id : String) (profile : Profile) :
    St :=
  save_user_profiles
    { st with user_profiles := dictSet st.user_profiles user_id profile }

def detect_language (env : Env) (text : String) : Except Exn String :=
  match env.detect text with
  | .ok l => .ok l
  | .error e => .error (.runtime ("Error detecting language: " ++ e.msg))

def load_translation_history (st : St) : St :=
  { st with translation_history := readStored st.historyFile [] }

def save_translation_history (env : Env) (st : St) :
    Except Exn Unit × St :=
  match env.historySaveExn with
  | some e => (.error e, st)
  | none => (.ok (), { st with historyFile := .valid st.translation_history })

def append_to_translation_history (env : Env) (st : St) (entry : Entry) :
    Except Exn Unit × St :=
  let st1 := load_translation_history st
  let st2 :=
    { st1 with translation_history := st1.translation_history ++ [entry] }
  save_translation_history env st2

/-- `except RuntimeError as re: raise re` /
`except Exception as e: raise RuntimeError(f"Error during translation: {str(e)}")`. -/
def wrapTranslationExn : Exn → Exn
  | .runtime m => .runtime m
  | .other m => .runtime ("Error during translation: " ++ m)

def modelName (source_lang target_lang : String) : String :=
  "Helsinki-NLP/opus-mt-" ++ source_lang ++ "-" ++ target_lang

def translate (env : Env) (st : St) (text user_id : String) :
    Except Exn String × St :=
  let gp := get_user_profile st user_id
  let st1 := gp.2
  let target_lang := gp.1.target_lang
  match detect_language env text with
  | .error e => (.error e, st1)
  | .ok source_lang =>
    let model_name := modelName source_lang target_lang
    match env.acquireModel model_name with
    | .error e => (.error (wrapTranslationExn e), st1)
    | .ok _ =>
      match env.acquireTokenizer model_name with
      | .error e => (.error (wrapTranslationExn e), st1)
      | .ok _ =>
        match env.infer model_name text with
        | .error e => (.error (wrapTranslationExn e), st1)
        | .ok translated_text =>
          let entry : Entry :=
            ⟨user_id, env.now, text, translated_text⟩
          let ap := append_to_translation_history env st1 entry
          match ap.1 with
          | .error e => (.error (wrapTranslationExn e), ap.2)
          | .ok _ => (.ok translated_text, ap.2)

/-- One request of the interactive loop: oracles may differ per call. -/
structure Req where
  env : Env
  text : String
  user_id : String

def runAll (st : St) : List Req → List (Except Exn String) × St
  | [] => ([], st)
  | r :: rs =>
    let p := translate r.env st r.text r.user_id
    let q := runAll p.2 rs
    (p.1 :: q.1, q.2)

/-- The history entries a list of calls with the given results builds,
in call order (failed calls build none). -/
def entriesOf : List Req → List (Except Exn String) → List Entry
  | [], _ => []
  | _ :: _, [] => []
  | r :: rs, res :: ress =>
    match res with
    | .ok t => ⟨r.user_id, r.env.now, r.text, t⟩ :: entriesOf rs ress
    | .error _ => entriesOf rs ress

/-- Whether a call returned normally rather than raising. -/
def exOk {ε α : Type} : Except ε α → Bool
  | .ok _ => true
  | .error _ => false

/-! Concrete instances used by witnesses and counterexamples. -/

def ts0 : Timestamp := ⟨"2024-01-01T00:00:00+00:00", "UTC"⟩

def st0 : St := ⟨[], [], .missing, .missing⟩

/-- Every external call succeeds; inference prefixes the text. -/
def envOk : Env :=
  ⟨fun _ => .ok "fr", fun _ => .ok (), fun _ => .ok (),
    fun _ t => .ok ("T:" ++ t), ts0, none⟩

/-- The detector raises (as langdetect does on empty input). -/
def envDetectFail : Env :=
  ⟨fun _ => .error (.other "No features in text."), fun _ => .ok (),
    fun _ => .ok (), fun _ t => .ok ("T:" ++ t), ts0, none⟩

/-- Everything succeeds except the final history write, which raises an
OSError. -/
def envSaveFail : Env :=
  ⟨fun _ => .ok "fr", fun _ => .ok (), fun _ => .ok (),
    fun _ t => .ok ("T:" ++ t), ts0,
    some (.other "No space left on device")⟩

/-- No pretrained model exists for the resolved pair:
`MarianMTModel.from_pretrained` raises an OSError. -/
def envUnavail : Env :=
  ⟨fun _ => .ok "xx", fun _ => .error (.other "boom"), fun _ => .ok (),
    fun _ t => .ok ("T:" ++ t), ts0, none⟩

/-- The model loads but inference itself raises with the same message. -/
def envInvokeFail : Env :=
  ⟨fun _ => .ok "xx", fun _ => .ok (), fun _ => .ok (),
    fun _ _ => .error (.other "boom"), ts0, none⟩

def reqs2 : List Req :=
  [⟨envOk, "Bonjour", "alice"⟩, ⟨envOk, "Salut", "bob"⟩]

/-! Dict lemmas. -/

theorem dictGet_dictSet_self {α : Type} (m : Dict α) (k : String) (v : α) :
    dictGet (dictSet m k v) k = some v := by
  induction m with
  | nil => simp [dictSet, dictGet]
  | cons hd rest ih =>
    obtain ⟨k', v'⟩ := hd
    by_cases hk : k' = k
    · simp [dictSet, dictGet, hk]
    · simp [dictSet, dictGet, hk, ih]

theorem dictGet_dictSet_ne {α : Type} (m : Dict α) (k k' : String) (v : α)
    (hne : k' ≠ k) : dictGet (dictSet m k v) k' = dictGet m k' := by
  induction m with
  | nil => simp [dictSet, dictGet, Ne.symm hne]
  | cons hd rest ih =>
    obtain ⟨k₀, v₀⟩ := hd
    by_cases hk : k₀ = k
    · subst hk
      simp [dictSet, dictGet, Ne.symm hne]
    · simp [dictSet, dictGet, hk, ih]

theorem dictGet_append_single {α : Type} (m : Dict α) (k : String) (d : α)
    (h : dictGet m k = none) : dictGet (m ++ [(k, d)]) k = some d := by
  induction m with
  | nil => simp [dictGet]
  | cons hd rest ih =>
    obtain ⟨k', v'⟩ := hd
    by_cases hk : k' = k
    · simp [dictGet, hk] at h
    · simp [dictGet, hk] at h ⊢
      exact ih h

/-- Claim C5: for a `user_id` with no existing profile, `get_user_profile`
returns `{target_lang: "en"}`, inserts it into the in-memory registry
without touching the persisted file, and an immediately repeated `get`
returns the same value and leaves the state fixed. -/
theorem get_user_profile_default (st : St) (uid : String)
    (h : dictGet st.user_profiles uid = none) :
    (get_user_profile st uid).1 = ⟨"en"⟩ ∧
    (get_user_profile st uid).2.profilesFile = st.profilesFile ∧
    (get_user_profile st uid).2.user_profiles
      = st.user_profiles ++ [(uid, ⟨"en"⟩)] ∧
    get_user_profile (get_user_profile st uid).2 uid
      = ((⟨"en"⟩ : Profile), (get_user_profile st uid).2) := by
  refine ⟨?_, ?_, ?_, ?_⟩ <;>
    simp [get_user_profile, dictSetdefault, h, dictGet_append_single _ _ _ h]

/-- Claim C5 witness at a concrete unseen user. -/
theorem get_user_profile_default_witness :
    (get_user_profile ⟨[], [], .missing, .missing⟩ "alice").1 = ⟨"en"⟩ :=
  (get_user_profile_default ⟨[], [], .missing, .missing⟩ "alice"
    (by rfl)).1

/-- Claim C6: `save_user_profile uid p` followed by a fresh load of the
registry from storage yields `get uid = p`. -/
theorem set_then_fresh_load_get (st : St) (uid : String) (p : Profile) :
    (get_user_profile (load_user_profiles (save_user_profile st uid p))
      uid).1 = p := by
  simp [save_user_profile, save_user_profiles, load_user_profiles,
    readStored, get_user_profile, dictSetdefault, dictGet_dictSet_self]

/-- Claim C7: loading from a missing, zero-length or unparseable file
yields the empty collection of the appropriate shape — an empty mapping
for profiles, an empty sequence for history. -/
theorem load_tolerates_bad_files (st : St)
    (hp : st.profilesFile = .missing ∨ st.profilesFile = .empty ∨
      st.profilesFile = .malformed)
    (hh : st.historyFile = .missing ∨ st.historyFile = .empty ∨
      st.historyFile = .malformed) :
    (load_user_profiles st).user_profiles = [] ∧
    (load_translation_history st).translation_history = [] := by
  constructor
  · rcases hp with h | h | h <;>
      simp [load_user_profiles, h, readStored]
  · rcases hh with h | h | h <;>
      simp [load_translation_history, h, readStored]

/-- Claim C7 witness: a state with a missing profiles file and a
zero-length history file loads as empty collections. -/
theorem load_tolerates_bad_files_witness :
    (load_user_profiles ⟨[("a", ⟨"fr"⟩)], [], .missing, .empty⟩).user_profiles
      = [] ∧
    (load_translation_history
      ⟨[("a", ⟨"fr"⟩)], [], .missing, .empty⟩).translation_history = [] :=
  load_tolerates_bad_files ⟨[("a", ⟨"fr"⟩)], [], .missing, .empty⟩
    (Or.inl rfl) (Or.inr (Or.inl rfl))

/-- Claim C10: after `save_user_profile uid p` the persisted registry
equals the entire in-memory mapping (defaults lazily created by earlier
gets become durable), and every other user's profile is written back
unchanged. -/
theorem save_user_profile_persists_whole_map (st : St) (uid : String)
    (p : Profile) :
    (save_user_profile st uid p).profilesFile
      = .valid (save_user_profile st uid p).user_profiles ∧
    (save_user_profile st uid p).user_profiles
      = dictSet st.user_profiles uid p ∧
    ∀ uid', uid' ≠ uid →
      dictGet (save_user_profile st uid p).user_profiles uid'
        = dictGet st.user_profiles uid' := by
  refine ⟨rfl, rfl, fun uid' hne => ?_⟩
  simp [save_user_profile, save_user_profiles,
    dictGet_dictSet_ne _ _ _ _ hne]

/-- Claim C10 witness: saving a profile for alice leaves bob's stored
profile unchanged and persists the whole map. -/
theorem save_user_profile_persists_whole_map_witness :
    dictGet (save_user_profile ⟨[("bob", ⟨"de"⟩)], [], .missing, .missing⟩
      "alice" ⟨"fr"⟩).user_profiles "bob" = some ⟨"de"⟩ := by
  have h := (save_user_profile_persists_whole_map
    ⟨[("bob", ⟨"de"⟩)], [], .missing, .missing⟩ "alice" ⟨"fr"⟩).2.2
    "bob" (by decide)
  rw [h]
  rfl

/-- Claim C4: when the write succeeds, `append_to_translation_history`
reloads the log from storage, appends the entry at the end, and persists
the result: the persisted log afterwards equals the on-disk log at append
time plus the entry, and the in-memory sequence reflects the on-disk
state rather than the prior in-memory one. -/
theorem append_reload_then_persist (env : Env) (st : St) (entry : Entry)
    (h : env.historySaveExn = none) :
    (append_to_translation_history env st entry).1 = .ok () ∧
    (append_to_translation_history env st entry).2.translation_history
      = readStored st.historyFile [] ++ [entry] ∧
    (append_to_translation_history env st entry).2.historyFile
      = .valid (readStored st.historyFile [] ++ [entry]) := by
  refine ⟨?_, ?_, ?_⟩ <;>
    simp [append_to_translation_history, load_translation_history,
      save_translation_history, h]

/-- Claim C4 witness: appending to a state whose file already holds one
entry persists both entries in order, ignoring the stale in-memory list. -/
theorem append_reload_then_persist_witness :
    (append_to_translation_history
      ⟨(fun _ => .error (.other "x")), (fun _ => .error (.other "x")),
        (fun _ => .error (.other "x")), (fun _ _ => .error (.other "x")),
        ⟨"t0", "UTC"⟩, none⟩
      ⟨[], [⟨"stale", ⟨"t", "z"⟩, "s", "s"⟩],
        .missing, .valid [⟨"u1", ⟨"t1", "UTC"⟩, "hi", "salut"⟩]⟩
      ⟨"u2", ⟨"t2", "UTC"⟩, "yo", "salut"⟩).2.historyFile
    = .valid [⟨"u1", ⟨"t1", "UTC"⟩, "hi", "salut"⟩,
        ⟨"u2", ⟨"t2", "UTC"⟩, "yo", "salut"⟩] :=
  (append_reload_then_persist _ _ _ rfl).2.2

/-! Helper lemmas about `translate`'s state handling. -/

@[simp]
theorem gup_historyFile (st : St) (uid : String) :
    (get_user_profile st uid).2.historyFile = st.historyFile := rfl

@[simp]
theorem gup_translation_history (st : St) (uid : String) :
    (get_user_profile st uid).2.translation_history
      = st.translation_history := rfl

@[simp]
theorem gup_profilesFile (st : St) (uid : String) :
    (get_user_profile st uid).2.profilesFile = st.profilesFile := rfl

@[simp]
theorem append_user_profiles (env : Env) (st : St) (entry : Entry) :
    (append_to_translation_history env st entry).2.user_profiles
      = st.user_profiles := by
  cases hs : env.historySaveExn <;>
    simp [append_to_translation_history, load_translation_history,
      save_translation_history, hs]

theorem translate_user_profiles (env : Env) (st : St) (text uid : String) :
    (translate env st text uid).2.user_profiles
      = (get_user_profile st uid).2.user_profiles := by
  simp only [translate]
  split
  · rfl
  · split
    · rfl
    · split
      · rfl
      · split
        · rfl
        · split
          · exact append_user_profiles _ _ _
          · exact append_user_profiles _ _ _

theorem translate_ok_persisted (env : Env) (st : St) (text uid t : String)
    (h : (translate env st text uid).1 = .ok t) :
    (translate env st text uid).2.historyFile
      = .valid (readStored st.historyFile [] ++ [⟨uid, env.now, text, t⟩]) := by
  cases hd : env.detect text with
  | error e => simp [translate, detect_language, hd] at h
  | ok src =>
    cases hm : env.acquireModel
        (modelName src (get_user_profile st uid).1.target_lang) with
    | error e => simp [translate, detect_language, hd, hm] at h
    | ok u =>
      cases u
      cases ht : env.acquireTokenizer
          (modelName src (get_user_profile st uid).1.target_lang) with
      | error e => simp [translate, detect_language, hd, hm, ht] at h
      | ok u =>
        cases u
        cases hi : env.infer
            (modelName src (get_user_profile st uid).1.target_lang) text with
        | error e => simp [translate, detect_language, hd, hm, ht, hi] at h
        | ok tt =>
          cases hs : env.historySaveExn with
          | some e =>
            simp [translate, detect_language, hd, hm, ht, hi,
              append_to_translation_history, load_translation_history,
              save_translation_history, hs] at h
          | none =>
            have hts : tt = t := by
              simpa [translate, detect_language, hd, hm, ht, hi,
                append_to_translation_history, load_translation_history,
                save_translation_history, hs] using h
            subst hts
            simp [translate, detect_language, hd, hm, ht, hi,
              append_to_translation_history, load_translation_history,
              save_translation_history, hs]

/-- Claim C2: if the detection step or the capability-resolution step
(loading the model or the tokenizer) fails, `translate` raises, no entry
is appended, and the persisted log is unchanged (hence so is its length). -/
theorem translate_failure_no_history (env : Env) (st : St)
    (text uid : String)
    (h : (∃ e, env.detect text = .error e)
      ∨ (∃ src e, env.detect text = .ok src ∧
          env.acquireModel
            (modelName src (get_user_profile st uid).1.target_lang)
            = .error e)
      ∨ (∃ src e, env.detect text = .ok src ∧
          env.acquireModel
            (modelName src (get_user_profile st uid).1.target_lang)
            = .ok () ∧
          env.acquireTokenizer
            (modelName src (get_user_profile st uid).1.target_lang)
            = .error e)) :
    exOk (translate env st text uid).1 = false ∧
    (translate env st text uid).2.historyFile = st.historyFile ∧
    (translate env st text uid).2.translation_history
      = st.translation_history := by
  rcases h with ⟨e, he⟩ | ⟨src, e, hd, hm⟩ | ⟨src, e, hd, hm, ht⟩
  · refine ⟨?_, ?_, ?_⟩ <;> simp [translate, detect_language, he, exOk]
  · refine ⟨?_, ?_, ?_⟩ <;> simp [translate, detect_language, hd, hm, exOk]
  · refine ⟨?_, ?_, ?_⟩ <;>
      simp [translate, detect_language, hd, hm, ht, exOk]

/-- Claim C2 witness: empty input makes the detector raise; the call
fails and both the persisted and the in-memory history are untouched. -/
theorem translate_failure_no_history_witness :
    exOk (translate envDetectFail st0 "" "alice").1 = false ∧
    (translate envDetectFail st0 "" "alice").2.historyFile
      = st0.historyFile ∧
    (translate envDetectFail st0 "" "alice").2.translation_history
      = st0.translation_history :=
  translate_failure_no_history envDetectFail st0 "" "alice"
    (Or.inl ⟨.other "No features in text.", rfl⟩)

/-- Claim C9: profile resolution precedes detection, so a `translate`
call that fails has already inserted the default `{target_lang: "en"}`
profile for an unseen `user_id` into the in-memory registry. -/
theorem translate_failure_still_inserts_default (env : Env) (st : St)
    (text uid : String)
    (habs : dictGet st.user_profiles uid = none)
    (_hfail : exOk (translate env st text uid).1 = false) :
    dictGet (translate env st text uid).2.user_profiles uid
      = some ⟨"en"⟩ := by
  rw [translate_user_profiles]
  simp [get_user_profile, dictSetdefault, habs,
    dictGet_append_single st.user_profiles uid ⟨"en"⟩ habs]

/-- Claim C9 witness: a failing detection on an unseen user still leaves
the default profile in the registry. -/
theorem translate_failure_still_inserts_default_witness :
    dictGet (translate envDetectFail st0 "" "alice").2.user_profiles
      "alice" = some ⟨"en"⟩ :=
  translate_failure_still_inserts_default envDetectFail st0 "" "alice"
    rfl rfl

/-- Claim C1 counterexample: with every external step succeeding but the
history write raising an OSError, `translate` does not return the
translated text `"T:Bonjour"` — it raises the wrapped RuntimeError, so
the caller never receives the result and no separate PersistenceError
exists. -/
theorem translate_persist_failure_counterexample :
    (translate envSaveFail st0 "Bonjour" "alice").1
      = .error
        (.runtime "Error during translation: No space left on device") ∧
    (translate envSaveFail st0 "Bonjour" "alice").1 ≠ .ok "T:Bonjour" := by
  constructor
  · rfl
  · rw [show (translate envSaveFail st0 "Bonjour" "alice").1
      = .error
        (.runtime "Error during translation: No space left on device")
      from rfl]
    simp

/-- Claim C1 amended: when detection, model and tokenizer loading and
inference succeed but persisting the appended entry raises a
non-RuntimeError exception, the caller does not receive the translated
text: `translate` raises `RuntimeError "Error during translation: " ++ m`,
the persisted log is unchanged, and only the in-memory list holds the
entry. -/
theorem translate_persist_failure_raises (env : Env) (st : St)
    (text uid src t m : String)
    (hd : env.detect text = .ok src)
    (hm : env.acquireModel
      (modelName src (get_user_profile st uid).1.target_lang) = .ok ())
    (ht : env.acquireTokenizer
      (modelName src (get_user_profile st uid).1.target_lang) = .ok ())
    (hi : env.infer
      (modelName src (get_user_profile st uid).1.target_lang) text
      = .ok t)
    (hs : env.historySaveExn = some (.other m)) :
    (translate env st text uid).1
      = .error (.runtime ("Error during translation: " ++ m)) ∧
    (translate env st text uid).2.historyFile = st.historyFile ∧
    (translate env st text uid).2.translation_history
      = readStored st.historyFile [] ++ [⟨uid, env.now, text, t⟩] := by
  refine ⟨?_, ?_, ?_⟩ <;>
    simp [translate, detect_language, hd, hm, ht, hi,
      append_to_translation_history, load_translation_history,
      save_translation_history, hs, wrapTranslationExn]

/-- Claim C1 amended witness at the concrete failing-save environment. -/
theorem translate_persist_failure_raises_witness :
    (translate envSaveFail st0 "Bonjour" "alice").1
      = .error (.runtime
          ("Error during translation: " ++ "No space left on device")) :=
  (translate_persist_failure_raises envSaveFail st0 "Bonjour" "alice"
    "fr" "T:Bonjour" "No space left on device" rfl rfl rfl rfl rfl).1

/-- Claim C8 counterexample: a missing capability for the pair and a
failure inside an available capability produce the very same raised
value, `RuntimeError "Error during translation: boom"` — the code has no
distinct TranslationUnavailableError kind. -/
theorem unavailable_error_not_distinct_counterexample :
    (translate envUnavail st0 "Hello" "alice").1
      = .error (.runtime "Error during translation: boom") ∧
    (translate envInvokeFail st0 "Hello" "alice").1
      = .error (.runtime "Error during translation: boom") ∧
    (translate envUnavail st0 "Hello" "alice").1
      = (translate envInvokeFail st0 "Hello" "alice").1 :=
  ⟨rfl, rfl, rfl⟩

/-- Claim C8 amended: when detection succeeds but no capability exists
for the resolved pair (model loading raises a non-RuntimeError), the
call fails with the generic wrapped
`RuntimeError "Error during translation: " ++ m` — the same kind used
for invocation failures — and no history entry is written. -/
theorem translate_unavailable_generic_error (env : Env) (st : St)
    (text uid src m : String)
    (hd : env.detect text = .ok src)
    (hm : env.acquireModel
      (modelName src (get_user_profile st uid).1.target_lang)
      = .error (.other m)) :
    (translate env st text uid).1
      = .error (.runtime ("Error during translation: " ++ m)) ∧
    (translate env st text uid).2.historyFile = st.historyFile ∧
    (translate env st text uid).2.translation_history
      = st.translation_history := by
  refine ⟨?_, ?_, ?_⟩ <;>
    simp [translate, detect_language, hd, hm, wrapTranslationExn]

/-- Claim C8 amended witness at the concrete missing-model environment. -/
theorem translate_unavailable_generic_error_witness :
    (translate envUnavail st0 "Hello" "alice").1
      = .error (.runtime ("Error during translation: " ++ "boom")) :=
  (translate_unavailable_generic_error envUnavail st0 "Hello" "alice"
    "xx" "boom" rfl rfl).1

/-! Sequences of calls. -/

theorem runAll_length (st : St) (reqs : List Req) :
    (runAll st reqs).1.length = reqs.length := by
  induction reqs generalizing st with
  | nil => rfl
  | cons r rs ih => simp [runAll, ih]

theorem entriesOf_length (reqs : List Req)
    (res : List (Except Exn String))
    (hlen : res.length = reqs.length)
    (hok : ∀ r ∈ res, exOk r = true) :
    (entriesOf reqs res).length = reqs.length := by
  induction reqs generalizing res with
  | nil => simp [entriesOf]
  | cons r rs ih =>
    cases res with
    | nil => simp at hlen
    | cons x xs =>
      cases x with
      | ok t =>
        simp only [entriesOf, List.length_cons]
        rw [ih xs (by simpa using hlen)
          (fun y hy => hok y (List.mem_cons_of_mem _ hy))]
      | error e =>
        have := hok _ (List.mem_cons_self _ _)
        simp [exOk] at this

theorem runAll_ok_persisted (reqs : List Req) (st : St)
    (hok : ∀ r ∈ (runAll st reqs).1, exOk r = true) :
    readStored (runAll st reqs).2.historyFile []
      = readStored st.historyFile []
        ++ entriesOf reqs (runAll st reqs).1 := by
  induction reqs generalizing st with
  | nil => simp [runAll, entriesOf]
  | cons r rs ih =>
    have hmem1 : (translate r.env st r.text r.user_id).1
        ∈ (runAll st (r :: rs)).1 := by
      simp [runAll]
    have hok1 := hok _ hmem1
    cases hres : (translate r.env st r.text r.user_id).1 with
    | error e => rw [hres] at hok1; simp [exOk] at hok1
    | ok t =>
      have hpers := translate_ok_persisted r.env st r.text r.user_id t hres
      have hokrest :
          ∀ x ∈ (runAll (translate r.env st r.text r.user_id).2 rs).1,
            exOk x = true := by
        intro x hx
        refine hok x ?_
        simp only [runAll]
        exact List.mem_cons_of_mem _ hx
      have hrest := ih (translate r.env st r.text r.user_id).2 hokrest
      have h2 : (runAll st (r :: rs)).2
          = (runAll (translate r.env st r.text r.user_id).2 rs).2 := rfl
      have h1 : (runAll st (r :: rs)).1
          = (translate r.env st r.text r.user_id).1
            :: (runAll (translate r.env st r.text r.user_id).2 rs).1 := rfl
      rw [h2, hrest, hpers, h1, hres]
      simp [entriesOf, readStored]

/-- Claim C3: starting from an empty persisted log, a sequence of
successful `translate` calls leaves the persisted history equal to the
entries of those calls, in call order (each entry persisted by its call,
earlier entries never mutated), with length equal to the number of
calls. -/
theorem translate_sequence_append_only (reqs : List Req) (st : St)
    (h0 : readStored st.historyFile [] = [])
    (hok : ∀ r ∈ (runAll st reqs).1, exOk r = true) :
    readStored (runAll st reqs).2.historyFile []
      = entriesOf reqs (runAll st reqs).1 ∧
    (entriesOf reqs (runAll st reqs).1).length = reqs.length := by
  constructor
  · rw [runAll_ok_persisted reqs st hok, h0]
    simp
  · exact entriesOf_length reqs _ (runAll_length st reqs) hok

/-- Claim C3 witness: two successful calls starting from a missing
history file persist exactly their two entries, in order. -/
theorem translate_sequence_append_only_witness :
    readStored (runAll st0 reqs2).2.historyFile []
      = entriesOf reqs2 (runAll st0 reqs2).1 ∧
    (entriesOf reqs2 (runAll st0 reqs2).1).length = reqs2.length :=
  translate_sequence_append_only reqs2 st0 rfl (by decide)

end NativeFlow
